import Mathlib

/-!
Shallow embedding of the cluster reconciliation engine of the mysql-operator
repository (`pkg/operator/cluster/operator.go`).

The remote orchestration platform is modelled as a record `Platform σ` of
state-passing response functions (one per remote operation the operator
performs), mirroring the spec's own "in-memory client with injected canned
responses" testing design.  Each embedded operator function threads the
platform state `σ` and additionally records the list of remote calls it
performed (the `Call` trace), so that claims about compensation order,
skipped steps and status writes can be stated about the trace.
-/

namespace MySQLOperator

/-- Kubernetes API error classes distinguished by the operator
(`apierrors.IsAlreadyExists`, `apierrors.IsNotFound`, anything else). -/
inductive K8sErr where
  | alreadyExists
  | notFound
  | other (msg : String)
deriving DecidableEq, Repr

/-- Go `error` values produced by the operator: a Kubernetes API error, a
template-render error (`util.ObjectFromTemplate`), or an aggregate built by
`k8s.io/apimachinery/pkg/util/errors.NewAggregate`. -/
inductive Err where
  | k8s (e : K8sErr)
  | render (msg : String)
  | aggregate (errs : List Err)
deriving Repr

/-- `errors.NewAggregate`: drops the nil entries of the list; the result is
nil iff no non-nil error remains, and otherwise wraps the surviving errors
(it does not flatten nested aggregates). -/
def newAggregate (errlist : List (Option Err)) : Option Err :=
  let errs := errlist.filterMap id
  if errs.isEmpty then none else some (.aggregate errs)

mutual

/-- The underlying causes of an error: aggregates are flattened recursively,
leaf errors are their own single cause. -/
def causes : Err → List Err
  | .k8s e => [.k8s e]
  | .render m => [.render m]
  | .aggregate es => causesList es

/-- `causes` mapped over a list of errors and concatenated. -/
def causesList : List Err → List Err
  | [] => []
  | e :: es => causes e ++ causesList es

end

/-- `crv1.MySQLClusterSpec`: storage size, replica count, optional backup
to seed from (empty string = unset). -/
structure MySQLClusterSpec where
  replicas : Option Nat
  storage : String
  fromBackup : String
deriving DecidableEq, Repr

/-- `crv1.MySQLClusterStatus`: state label and human-readable message. -/
structure MySQLClusterStatus where
  state : String
  message : String
deriving DecidableEq, Repr

/-- `crv1.MySQLCluster`: identity (name, namespace), spec and status. -/
structure MySQLCluster where
  name : String
  namespaceName : String
  spec : MySQLClusterSpec
  status : MySQLClusterStatus
deriving DecidableEq, Repr

/-- A rendered `corev1.Service` object, reduced to the fields the operator
reads or writes: its name and its resource version. -/
structure Service where
  name : String
  resourceVersion : String
deriving DecidableEq, Repr

/-- A rendered `appsv1.StatefulSet` object, reduced to its name. -/
structure StatefulSet where
  name : String
deriving DecidableEq, Repr

/-- A `crv1.MySQLBackupInstance`, reduced to its name. -/
structure Backup where
  name : String
deriving DecidableEq, Repr

/-- Template file constants from `operator.go`. -/
def serviceTemplate : String := "artifacts/cluster-service.yaml"

/-- Template file constant for the read-only service. -/
def serviceReadTemplate : String := "artifacts/cluster-service-read.yaml"

/-- Template file constant for the stateful set. -/
def statefulSetTemplate : String := "artifacts/cluster-statefulset.yaml"

/-- Modelled from the spec: deterministic naming contract (§6) implemented
by the repository's name helpers (not under `src/`): the read-write
endpoint is named after the cluster. -/
def ServiceName (clusterName : String) : String := clusterName

/-- Modelled from the spec: read-only endpoint name = `<clusterName>-read`. -/
def ReadServiceName (clusterName : String) : String := clusterName ++ "-read"

/-- Modelled from the spec: workload name = `<clusterName>`. -/
def StatefulSetName (clusterName : String) : String := clusterName

/-- Modelled from the spec: `cluster.WithDefaults()` (defined in
`pkg/apis/cr/v1`, not under `src/`) applies pure, deterministic defaults to
unset optional spec fields before any object is rendered; it touches only
the spec, never identity or status. -/
def withDefaults (c : MySQLCluster) : MySQLCluster :=
  { c with spec := { c.spec with replicas := some (c.spec.replicas.getD 2) } }

/-- One remote call performed by the operator, as recorded in traces. -/
inductive Call where
  | createSvc (name : String)
  | createSts (name : String)
  | deleteSvc (name : String)
  | getBackup (name : String)
  | getSvc (name : String)
  | updateSvc (name resourceVersion : String)
  | updateSts (name : String)
  | updateStatus (state message : String)
deriving DecidableEq, Repr

/-- The remote platform and renderer, as state-passing response functions.
`renderService`/`renderStatefulSet` model `util.ObjectFromTemplate` (pure in
the cluster and template, per the spec).  The Get of a service returns both
an object and an error because the Go typed client always returns a non-nil
(possibly empty) object alongside the error. -/
structure Platform (σ : Type) where
  renderService : MySQLCluster → String → Except String Service
  renderStatefulSet : MySQLCluster → Option Backup → Except String StatefulSet
  createService : Service → σ → Option K8sErr × σ
  createStatefulSet : StatefulSet → σ → Option K8sErr × σ
  deleteService : String → σ → Option K8sErr × σ
  getBackup : String → σ → Except K8sErr Backup × σ
  getService : String → σ → (Service × Option K8sErr) × σ
  updateService : Service → σ → Option K8sErr × σ
  updateStatefulSet : StatefulSet → σ → Option K8sErr × σ
  updateClusterStatus : MySQLCluster → σ → Option K8sErr × σ

variable {σ : Type}

/-- `clusterOperator.createService`: render the service from the template,
create it, and swallow (only) an AlreadyExists creation error. -/
def createService (p : Platform σ) (cluster : MySQLCluster) (filename : String)
    (s : σ) : Option Err × σ × List Call :=
  match p.renderService cluster filename with
  | .error m => (some (.render m), s, [])
  | .ok service =>
    match p.createService service s with
    | (none, s') => (none, s', [.createSvc service.name])
    | (some .alreadyExists, s') => (none, s', [.createSvc service.name])
    | (some e, s') => (some (.k8s e), s', [.createSvc service.name])

/-- Lines 140-152 of `clusterOperator.createStatefulSet`: when
`spec.fromBackup` is set, fetch the named backup instance, propagating the
lookup error; otherwise no backup is used. -/
def resolveBackup (p : Platform σ) (cluster : MySQLCluster)
    (s : σ) : Except K8sErr (Option Backup) × σ × List Call :=
  if cluster.spec.fromBackup = "" then (.ok none, s, [])
  else
    match p.getBackup cluster.spec.fromBackup s with
    | (.ok b, s') => (.ok (some b), s', [.getBackup cluster.spec.fromBackup])
    | (.error e, s') => (.error e, s', [.getBackup cluster.spec.fromBackup])

/-- `clusterOperator.createStatefulSet`: resolve the backup when
`spec.fromBackup` is set (aborting on failure), render the stateful set,
create it, and swallow (only) an AlreadyExists creation error. -/
def createStatefulSet (p : Platform σ) (cluster : MySQLCluster)
    (s : σ) : Option Err × σ × List Call :=
  match resolveBackup p cluster s with
  | (.error e, s1, t1) => (some (.k8s e), s1, t1)
  | (.ok backup, s1, t1) =>
    match p.renderStatefulSet cluster backup with
    | .error m => (some (.render m), s1, t1)
    | .ok statefulSet =>
      match p.createStatefulSet statefulSet s1 with
      | (none, s2) => (none, s2, t1 ++ [.createSts statefulSet.name])
      | (some .alreadyExists, s2) => (none, s2, t1 ++ [.createSts statefulSet.name])
      | (some e, s2) => (some (.k8s e), s2, t1 ++ [.createSts statefulSet.name])

/-- `clusterOperator.removeService`: delete the read-write service by its
derived name, returning the platform's error unchanged. -/
def removeService (p : Platform σ) (cluster : MySQLCluster)
    (s : σ) : Option K8sErr × σ × List Call :=
  match p.deleteService (ServiceName cluster.name) s with
  | (e, s') => (e, s', [.deleteSvc (ServiceName cluster.name)])

/-- `clusterOperator.removeReadService`: delete the read-only service by its
derived name, returning the platform's error unchanged. -/
def removeReadService (p : Platform σ) (cluster : MySQLCluster)
    (s : σ) : Option K8sErr × σ × List Call :=
  match p.deleteService (ReadServiceName cluster.name) s with
  | (e, s') => (e, s', [.deleteSvc (ReadServiceName cluster.name)])

/-- `clusterOperator.AddCluster`: default the spec, create the read-write
service, the read-only service, and the stateful set in order, compensating
partial failures by deleting already-created services and aggregating the
errors exactly as `operator.go` does.  Returns the operator result, the
(possibly defaulted) cluster object, the final platform state and the call
trace. -/
def AddCluster (p : Platform σ) (cluster0 : MySQLCluster)
    (s : σ) : Option Err × MySQLCluster × σ × List Call :=
  let cluster := withDefaults cluster0
  match createService p cluster serviceTemplate s with
  | (some e, s1, t1) => (some e, cluster, s1, t1)
  | (none, s1, t1) =>
    match createService p cluster serviceReadTemplate s1 with
    | (some e, s2, t2) =>
      match removeService p cluster s2 with
      | (removeErr, s3, t3) =>
        (newAggregate [some e, removeErr.map .k8s], cluster, s3, t1 ++ t2 ++ t3)
    | (none, s2, t2) =>
      match createStatefulSet p cluster s2 with
      | (some e, s3, t3) =>
        match removeService p cluster s3 with
        | (removeErr, s4, t4) =>
          let e2 := newAggregate [some e, removeErr.map .k8s]
          match removeReadService p cluster s4 with
          | (removeErr2, s5, t5) =>
            (newAggregate [e2, removeErr2.map .k8s], cluster, s5,
              t1 ++ t2 ++ t3 ++ t4 ++ t5)
      | (none, s3, t3) => (none, cluster, s3, t1 ++ t2 ++ t3)

/-- The cluster object after lines 114-115 of `setClusterState`: the same
resource with its status state and message overwritten. -/
def withStatus (cluster : MySQLCluster) (state message : String) : MySQLCluster :=
  { cluster with status := { state := state, message := message } }

/-- `clusterOperator.setClusterState`: write state and message into the
resource's status and push the resource update to the platform, returning
the update error unchanged. -/
def setClusterState (p : Platform σ) (cluster : MySQLCluster)
    (state message : String) (s : σ) :
    Option Err × MySQLCluster × σ × List Call :=
  let cluster' := withStatus cluster state message
  match p.updateClusterStatus cluster' s with
  | (updateErr, s') =>
    (updateErr.map .k8s, cluster', s', [.updateStatus state message])

/-- Free function `updateService`: render the service, read the existing
object's resource version (discarding the Get error without inspection),
copy that version onto the rendered object and update it, returning only
the render error or the update error. -/
def updateService (p : Platform σ) (cluster : MySQLCluster) (template : String)
    (s : σ) : Option Err × σ × List Call :=
  match p.renderService cluster template with
  | .error m => (some (.render m), s, [])
  | .ok service =>
    match p.getService service.name s with
    | ((oldService, _), s1) =>
      let service' := { service with resourceVersion := oldService.resourceVersion }
      match p.updateService service' s1 with
      | (updateErr, s2) =>
        (updateErr.map .k8s, s2,
          [.getSvc service.name, .updateSvc service'.name service'.resourceVersion])

/-- `clusterOperator.updateServices`: update the read-write service, then,
only if that succeeded, the read-only service. -/
def updateServices (p : Platform σ) (cluster : MySQLCluster)
    (s : σ) : Option Err × σ × List Call :=
  match updateService p cluster serviceTemplate s with
  | (some e, s1, t1) => (some e, s1, t1)
  | (none, s1, t1) =>
    match updateService p cluster serviceReadTemplate s1 with
    | (e, s2, t2) => (e, s2, t1 ++ t2)

/-- `clusterOperator.updateStatefulSet`: render the stateful set (with no
backup) and update it. -/
def updateStatefulSet (p : Platform σ) (cluster : MySQLCluster)
    (s : σ) : Option Err × σ × List Call :=
  match p.renderStatefulSet cluster none with
  | .error m => (some (.render m), s, [])
  | .ok statefulSet =>
    match p.updateStatefulSet statefulSet s with
    | (updateErr, s') =>
      (updateErr.map .k8s, s', [.updateSts statefulSet.name])

/-- `clusterOperator.UpdateCluster`: default the spec, update the services,
then the stateful set; on either failure write a "Failed update" status and
return the aggregate of the failure with the status-write error; on full
success write a "Successful update" status and return its result directly. -/
def UpdateCluster (p : Platform σ) (newCluster0 : MySQLCluster)
    (s : σ) : Option Err × MySQLCluster × σ × List Call :=
  let newCluster := withDefaults newCluster0
  match updateServices p newCluster s with
  | (some e, s1, t1) =>
    match setClusterState p newCluster "Failed update"
        "The provided patch resulted in a Service update failure" s1 with
    | (setStateErr, c', s2, t2) =>
      (newAggregate [some e, setStateErr], c', s2, t1 ++ t2)
  | (none, s1, t1) =>
    match updateStatefulSet p newCluster s1 with
    | (some e, s2, t2) =>
      match setClusterState p newCluster "Failed update"
          "The provided patch resulted in a StatefulSet update failure" s2 with
      | (setStateErr, c', s3, t3) =>
        (newAggregate [some e, setStateErr], c', s3, t1 ++ t2 ++ t3)
    | (none, s2, t2) =>
      match setClusterState p newCluster "Successful update" "" s2 with
      | (setStateErr, c', s3, t3) =>
        (setStateErr, c', s3, t1 ++ t2 ++ t3)

/-- The objects the platform holds, for the in-memory platform used to
state idempotence: existing service names, stateful-set names and backups. -/
structure World where
  services : List String
  statefulSets : List String
  backups : List Backup
deriving DecidableEq, Repr

/-- An in-memory platform over `World` (the spec's "fake client"): creates
fail with AlreadyExists iff the name is present and otherwise insert it,
deletes fail with NotFound iff the name is absent and otherwise remove it,
gets find by name.  The renderers follow the deterministic naming contract
(modelled from the spec, §6: templates are not under `src/`). -/
def worldPlatform : Platform World where
  renderService := fun c template =>
    .ok { name := if template = serviceReadTemplate then ReadServiceName c.name
                  else ServiceName c.name,
          resourceVersion := "" }
  renderStatefulSet := fun c _ => .ok { name := StatefulSetName c.name }
  createService := fun svc w =>
    if svc.name ∈ w.services then (some .alreadyExists, w)
    else (none, { w with services := w.services ++ [svc.name] })
  createStatefulSet := fun sts w =>
    if sts.name ∈ w.statefulSets then (some .alreadyExists, w)
    else (none, { w with statefulSets := w.statefulSets ++ [sts.name] })
  deleteService := fun n w =>
    if n ∈ w.services then (none, { w with services := w.services.erase n })
    else (some .notFound, w)
  getBackup := fun n w =>
    match w.backups.find? (fun b => b.name = n) with
    | some b => (.ok b, w)
    | none => (.error .notFound, w)
  getService := fun n w =>
    if n ∈ w.services then (({ name := n, resourceVersion := "1" }, none), w)
    else (({ name := "", resourceVersion := "" }, some .notFound), w)
  updateService := fun svc w =>
    if svc.name ∈ w.services then (none, w) else (some .notFound, w)
  updateStatefulSet := fun sts w =>
    if sts.name ∈ w.statefulSets then (none, w) else (some .notFound, w)
  updateClusterStatus := fun _ w => (none, w)

/-- A sample cluster resource used to instantiate theorems on concrete
inputs. -/
def testCluster : MySQLCluster where
  name := "mycluster"
  namespaceName := "default"
  spec := { replicas := none, storage := "1Gi", fromBackup := "" }
  status := { state := "", message := "" }

/-- A sample cluster resource whose spec requests seeding from a backup. -/
def testClusterFromBackup : MySQLCluster where
  name := "mycluster"
  namespaceName := "default"
  spec := { replicas := none, storage := "1Gi", fromBackup := "mybackup" }
  status := { state := "", message := "" }

/-- A stateless platform with scripted responses, used to instantiate the
creation-path theorems on concrete inputs: the create and delete outcomes
for each object and the backup lookup outcome are fixed parameters;
renderers follow the naming contract. -/
def scriptedPlatform (clusterName : String)
    (rwCreate roCreate stsCreate : Option K8sErr)
    (rwDelete roDelete : Option K8sErr)
    (backupResult : Except K8sErr Backup) : Platform Unit where
  renderService := fun c template =>
    .ok { name := if template = serviceReadTemplate then ReadServiceName c.name
                  else ServiceName c.name,
          resourceVersion := "" }
  renderStatefulSet := fun c _ => .ok { name := StatefulSetName c.name }
  createService := fun svc u =>
    (if svc.name = ReadServiceName clusterName then roCreate else rwCreate, u)
  createStatefulSet := fun _ u => (stsCreate, u)
  deleteService := fun n u =>
    (if n = ReadServiceName clusterName then roDelete else rwDelete, u)
  getBackup := fun _ u => (backupResult, u)
  getService := fun n u => (({ name := n, resourceVersion := "42" }, none), u)
  updateService := fun _ u => (none, u)
  updateStatefulSet := fun _ u => (none, u)
  updateClusterStatus := fun _ u => (none, u)

/-- A stateless platform with scripted responses for the update path: the
two service update outcomes, the stateful-set update outcome, the status
write outcome and the Get outcome are fixed parameters. -/
def scriptedUpdatePlatform (clusterName : String)
    (rwUpdate roUpdate stsUpdate statusWrite : Option K8sErr)
    (getResult : Service × Option K8sErr) : Platform Unit where
  renderService := fun c template =>
    .ok { name := if template = serviceReadTemplate then ReadServiceName c.name
                  else ServiceName c.name,
          resourceVersion := "" }
  renderStatefulSet := fun c _ => .ok { name := StatefulSetName c.name }
  createService := fun _ u => (none, u)
  createStatefulSet := fun _ u => (none, u)
  deleteService := fun _ u => (none, u)
  getBackup := fun n u => (.ok { name := n }, u)
  getService := fun _ u => (getResult, u)
  updateService := fun svc u =>
    (if svc.name = ReadServiceName clusterName then roUpdate else rwUpdate, u)
  updateStatefulSet := fun _ u => (stsUpdate, u)
  updateClusterStatus := fun _ u => (statusWrite, u)

/-- Insert a name into a list of existing object names unless it is
already present — the effect of a create against the in-memory platform. -/
def insertIfMissing (n : String) (l : List String) : List String :=
  if n ∈ l then l else l ++ [n]

/-- Notification kinds delivered by the watch mechanism
(`watch.Added` / `watch.Modified` / `watch.Deleted`). -/
inductive EventKind where
  | added
  | modified
  | deleted
deriving DecidableEq, Repr

/-- A cluster-resource change notification: its kind and the identity of
the resource it concerns. -/
structure Notification where
  kind : EventKind
  clusterName : String
deriving DecidableEq, Repr

/-- A reconciler invocation as observed by the Reconciler. -/
inductive Invocation where
  | addCluster (clusterName : String)
  | updateCluster (clusterName : String)
  | teardown (clusterName : String)
deriving DecidableEq, Repr

/-- Modelled from the spec: the Event Dispatcher (the cluster controller,
whose source is not under `src/`; only its fake constructor is) maps one
notification to exactly one reconciler invocation: Added to `AddCluster`,
Modified to `UpdateCluster`, Deleted to the teardown path. -/
def dispatchOne (n : Notification) : Invocation :=
  match n.kind with
  | .added => .addCluster n.clusterName
  | .modified => .updateCluster n.clusterName
  | .deleted => .teardown n.clusterName

/-- Modelled from the spec: per resource identity the Dispatcher is
serialized and processes notifications in arrival order, exactly once each
and without dropping; the per-identity invocation trace is therefore the
arrival-ordered image of the notification stream under `dispatchOne`. -/
def dispatch (ns : List Notification) : List Invocation :=
  ns.map dispatchOne

@[simp] theorem withDefaults_name (c : MySQLCluster) :
    (withDefaults c).name = c.name := rfl

@[simp] theorem withDefaults_status (c : MySQLCluster) :
    (withDefaults c).status = c.status := rfl

@[simp] theorem withDefaults_fromBackup (c : MySQLCluster) :
    (withDefaults c).spec.fromBackup = c.spec.fromBackup := rfl

@[simp] theorem withStatus_status (c : MySQLCluster) (st m : String) :
    (withStatus c st m).status = { state := st, message := m } := rfl

/-- Equation for the `AddCluster` path in which the read-write service is
created successfully and creation of the read-only service fails with a
non-AlreadyExists error: the read-write service is deleted and the original
and deletion errors are aggregated. -/
theorem AddCluster_read_service_fail_eq {σ : Type}
    (p : Platform σ) (c : MySQLCluster) (s : σ)
    (svcRW svcRO : Service) (s1 s2 s3 : σ) (e : K8sErr) (d : Option K8sErr)
    (hrw : p.renderService (withDefaults c) serviceTemplate = Except.ok svcRW)
    (hcrw : p.createService svcRW s = (none, s1))
    (hro : p.renderService (withDefaults c) serviceReadTemplate = Except.ok svcRO)
    (hcro : p.createService svcRO s1 = (some e, s2))
    (hne : e ≠ K8sErr.alreadyExists)
    (hdel : p.deleteService (ServiceName c.name) s2 = (d, s3)) :
    AddCluster p c s =
      (newAggregate [some (Err.k8s e), d.map Err.k8s], withDefaults c, s3,
        [Call.createSvc svcRW.name, Call.createSvc svcRO.name,
         Call.deleteSvc (ServiceName c.name)]) := by
  cases e with
  | alreadyExists => exact absurd rfl hne
  | notFound =>
      simp [AddCluster, createService, removeService, hrw, hcrw, hro, hcro, hdel]
  | other m =>
      simp [AddCluster, createService, removeService, hrw, hcrw, hro, hcro, hdel]

/-- Equation for the `AddCluster` path in which both services are created
(possibly already existing) and `createStatefulSet` fails: both services
are deleted, read-write first, and the errors are aggregated in two
steps. -/
theorem AddCluster_workload_fail_eq {σ : Type}
    (p : Platform σ) (c : MySQLCluster) (s : σ)
    (s1 s2 s3 s4 s5 : σ) (t1 t2 t3 : List Call) (e0 : Err) (d1 d2 : Option K8sErr)
    (h1 : createService p (withDefaults c) serviceTemplate s = (none, s1, t1))
    (h2 : createService p (withDefaults c) serviceReadTemplate s1 = (none, s2, t2))
    (h3 : createStatefulSet p (withDefaults c) s2 = (some e0, s3, t3))
    (hd1 : p.deleteService (ServiceName c.name) s3 = (d1, s4))
    (hd2 : p.deleteService (ReadServiceName c.name) s4 = (d2, s5)) :
    AddCluster p c s =
      (newAggregate [newAggregate [some e0, d1.map Err.k8s], d2.map Err.k8s],
        withDefaults c, s5,
        t1 ++ t2 ++ t3 ++ [Call.deleteSvc (ServiceName c.name),
          Call.deleteSvc (ReadServiceName c.name)]) := by
  simp [AddCluster, removeService, removeReadService, h1, h2, h3, hd1, hd2]

/-- C1: if during `AddCluster` the read-write service creation succeeds and
the read-only service creation fails with a non-AlreadyExists error, then
the read-write service is deleted as the last call before returning, and
the returned error is a composite whose causes are the original creation
failure followed by the deletion failure if the delete failed too. -/
theorem addCluster_read_service_rollback {σ : Type}
    (p : Platform σ) (c : MySQLCluster) (s : σ)
    (svcRW svcRO : Service) (s1 s2 s3 : σ) (e : K8sErr) (d : Option K8sErr)
    (hrw : p.renderService (withDefaults c) serviceTemplate = Except.ok svcRW)
    (hcrw : p.createService svcRW s = (none, s1))
    (hro : p.renderService (withDefaults c) serviceReadTemplate = Except.ok svcRO)
    (hcro : p.createService svcRO s1 = (some e, s2))
    (hne : e ≠ K8sErr.alreadyExists)
    (hdel : p.deleteService (ServiceName c.name) s2 = (d, s3)) :
    (∃ t, (AddCluster p c s).2.2.2 = t ++ [Call.deleteSvc (ServiceName c.name)]) ∧
    ∃ err, (AddCluster p c s).1 = some err ∧
      causes err = Err.k8s e :: (d.map Err.k8s).toList := by
  rw [AddCluster_read_service_fail_eq p c s svcRW svcRO s1 s2 s3 e d
    hrw hcrw hro hcro hne hdel]
  refine ⟨⟨[Call.createSvc svcRW.name, Call.createSvc svcRO.name], rfl⟩, ?_⟩
  cases d with
  | none => exact ⟨_, rfl, rfl⟩
  | some de => exact ⟨_, rfl, rfl⟩

/-- Witness for C1 at a concrete platform: the read-only creation fails
with a generic error and the compensating delete succeeds. -/
theorem addCluster_read_service_rollback_witness :
    (∃ t, (AddCluster
        (scriptedPlatform "mycluster" none (some (.other "boom")) none none none
          (Except.ok { name := "b" })) testCluster ()).2.2.2 =
      t ++ [Call.deleteSvc (ServiceName testCluster.name)]) ∧
    ∃ err, (AddCluster
        (scriptedPlatform "mycluster" none (some (.other "boom")) none none none
          (Except.ok { name := "b" })) testCluster ()).1 = some err ∧
      causes err = Err.k8s (K8sErr.other "boom") ::
        ((none : Option K8sErr).map Err.k8s).toList :=
  addCluster_read_service_rollback _ testCluster ()
    { name := "mycluster", resourceVersion := "" }
    { name := "mycluster-read", resourceVersion := "" } () () ()
    (K8sErr.other "boom") none rfl (by decide) rfl (by decide)
    (by simp) (by decide)

/-- Conclusions shared by the workload-failure compensation claims: when
both service creations return no error and `createStatefulSet` fails, the
trace ends with the two deletes (read-write first) and the causes of the
returned composite are the original failure's causes followed by the
deletion failures that occurred. -/
theorem AddCluster_workload_fail_causes {σ : Type}
    (p : Platform σ) (c : MySQLCluster) (s : σ)
    (s1 s2 s3 s4 s5 : σ) (t1 t2 t3 : List Call) (e0 : Err) (d1 d2 : Option K8sErr)
    (h1 : createService p (withDefaults c) serviceTemplate s = (none, s1, t1))
    (h2 : createService p (withDefaults c) serviceReadTemplate s1 = (none, s2, t2))
    (h3 : createStatefulSet p (withDefaults c) s2 = (some e0, s3, t3))
    (hd1 : p.deleteService (ServiceName c.name) s3 = (d1, s4))
    (hd2 : p.deleteService (ReadServiceName c.name) s4 = (d2, s5)) :
    (∃ t, (AddCluster p c s).2.2.2 = t ++ [Call.deleteSvc (ServiceName c.name),
      Call.deleteSvc (ReadServiceName c.name)]) ∧
    ∃ err, (AddCluster p c s).1 = some err ∧
      causes err = causes e0 ++
        ((d1.map Err.k8s).toList ++ (d2.map Err.k8s).toList) := by
  rw [AddCluster_workload_fail_eq p c s s1 s2 s3 s4 s5 t1 t2 t3 e0 d1 d2
    h1 h2 h3 hd1 hd2]
  refine ⟨⟨t1 ++ t2 ++ t3, by simp⟩, ?_⟩
  cases d1 <;> cases d2 <;>
    exact ⟨_, rfl, by simp [newAggregate, causes, causesList]⟩

/-- C2: if during `AddCluster` both service creations succeed (or find the
service already existing) and the stateful-set creation fails with a
non-AlreadyExists error, both services are deleted — read-write first, then
read-only — and the causes of the returned composite are the original
failure plus each deletion failure that occurred (up to three). -/
theorem addCluster_workload_rollback {σ : Type}
    (p : Platform σ) (c : MySQLCluster) (s : σ)
    (svcRW svcRO : Service) (sts : StatefulSet) (backup : Option Backup)
    (s1 s2 sB s3 s4 s5 : σ) (tB : List Call)
    (crw cro : Option K8sErr) (e : K8sErr) (d1 d2 : Option K8sErr)
    (hrw : p.renderService (withDefaults c) serviceTemplate = Except.ok svcRW)
    (hcrw : p.createService svcRW s = (crw, s1))
    (hcrwOk : crw = none ∨ crw = some K8sErr.alreadyExists)
    (hro : p.renderService (withDefaults c) serviceReadTemplate = Except.ok svcRO)
    (hcro : p.createService svcRO s1 = (cro, s2))
    (hcroOk : cro = none ∨ cro = some K8sErr.alreadyExists)
    (hback : resolveBackup p (withDefaults c) s2 = (Except.ok backup, sB, tB))
    (hrsts : p.renderStatefulSet (withDefaults c) backup = Except.ok sts)
    (hcsts : p.createStatefulSet sts sB = (some e, s3))
    (hne : e ≠ K8sErr.alreadyExists)
    (hd1 : p.deleteService (ServiceName c.name) s3 = (d1, s4))
    (hd2 : p.deleteService (ReadServiceName c.name) s4 = (d2, s5)) :
    (∃ t, (AddCluster p c s).2.2.2 = t ++ [Call.deleteSvc (ServiceName c.name),
      Call.deleteSvc (ReadServiceName c.name)]) ∧
    ∃ err, (AddCluster p c s).1 = some err ∧
      causes err = Err.k8s e ::
        ((d1.map Err.k8s).toList ++ (d2.map Err.k8s).toList) := by
  have h1 : createService p (withDefaults c) serviceTemplate s =
      (none, s1, [Call.createSvc svcRW.name]) := by
    rcases hcrwOk with h | h <;> subst h <;> simp [createService, hrw, hcrw]
  have h2 : createService p (withDefaults c) serviceReadTemplate s1 =
      (none, s2, [Call.createSvc svcRO.name]) := by
    rcases hcroOk with h | h <;> subst h <;> simp [createService, hro, hcro]
  have h3 : createStatefulSet p (withDefaults c) s2 =
      (some (Err.k8s e), s3, tB ++ [Call.createSts sts.name]) := by
    cases e with
    | alreadyExists => exact absurd rfl hne
    | notFound => simp [createStatefulSet, hback, hrsts, hcsts]
    | other m => simp [createStatefulSet, hback, hrsts, hcsts]
  have hc := AddCluster_workload_fail_causes p c s s1 s2 s3 s4 s5 _ _ _
    (Err.k8s e) d1 d2 h1 h2 h3 hd1 hd2
  simpa [causes] using hc

/-- Witness for C2 at a concrete platform: the stateful-set creation fails
and both compensating deletes also fail; all three causes are preserved. -/
theorem addCluster_workload_rollback_witness :
    (∃ t, (AddCluster (scriptedPlatform "mycluster" none none
        (some (.other "stsboom")) (some (.other "d1")) (some .notFound)
        (Except.ok { name := "b" })) testCluster ()).2.2.2 =
      t ++ [Call.deleteSvc (ServiceName testCluster.name),
        Call.deleteSvc (ReadServiceName testCluster.name)]) ∧
    ∃ err, (AddCluster (scriptedPlatform "mycluster" none none
        (some (.other "stsboom")) (some (.other "d1")) (some .notFound)
        (Except.ok { name := "b" })) testCluster ()).1 = some err ∧
      causes err = Err.k8s (K8sErr.other "stsboom") ::
        (((some (K8sErr.other "d1") : Option K8sErr).map Err.k8s).toList ++
          ((some K8sErr.notFound : Option K8sErr).map Err.k8s).toList) :=
  addCluster_workload_rollback _ testCluster ()
    { name := "mycluster", resourceVersion := "" }
    { name := "mycluster-read", resourceVersion := "" }
    { name := "mycluster" } none () () () () () () []
    none none (K8sErr.other "stsboom") (some (K8sErr.other "d1"))
    (some K8sErr.notFound) rfl (by decide) (Or.inl rfl) rfl (by decide)
    (Or.inl rfl) rfl rfl (by decide) (by decide) (by decide) (by decide)

/-- Counterexample to C3 as stated: with both services created and a
failing backup lookup, `AddCluster` does not return the bare resolution
error (it returns a doubly-wrapped aggregate), and it does perform
compensating deletes of both services. -/
theorem addCluster_backup_fail_counterexample :
    (AddCluster (scriptedPlatform "mycluster" none none none none none
        (Except.error (K8sErr.other "nobackup"))) testClusterFromBackup ()).1 ≠
      some (Err.k8s (K8sErr.other "nobackup")) ∧
    Call.deleteSvc (ServiceName testClusterFromBackup.name) ∈
      (AddCluster (scriptedPlatform "mycluster" none none none none none
        (Except.error (K8sErr.other "nobackup"))) testClusterFromBackup ()).2.2.2 ∧
    Call.deleteSvc (ReadServiceName testClusterFromBackup.name) ∈
      (AddCluster (scriptedPlatform "mycluster" none none none none none
        (Except.error (K8sErr.other "nobackup"))) testClusterFromBackup ()).2.2.2 := by
  have h1 : (AddCluster (scriptedPlatform "mycluster" none none none none none
      (Except.error (K8sErr.other "nobackup"))) testClusterFromBackup ()).1 =
      some (Err.aggregate [Err.aggregate [Err.k8s (K8sErr.other "nobackup")]]) := rfl
  have h2 : (AddCluster (scriptedPlatform "mycluster" none none none none none
      (Except.error (K8sErr.other "nobackup"))) testClusterFromBackup ()).2.2.2 =
      [Call.createSvc "mycluster", Call.createSvc "mycluster-read",
        Call.getBackup "mybackup", Call.deleteSvc "mycluster",
        Call.deleteSvc "mycluster-read"] := rfl
  refine ⟨?_, ?_, ?_⟩
  · rw [h1]
    intro h
    simp at h
  · rw [h2]; decide
  · rw [h2]; decide

/-- C3 amended: if the backup resolution fails during `AddCluster`, the
operator treats it exactly like a workload-creation failure: it deletes the
read-write and then the read-only service and returns a composite error
whose underlying causes are the resolution error followed by any deletion
failures. -/
theorem addCluster_backup_resolution_fail {σ : Type}
    (p : Platform σ) (c : MySQLCluster) (s : σ)
    (s1 s2 s3 s4 s5 : σ) (t1 t2 : List Call) (e : K8sErr) (d1 d2 : Option K8sErr)
    (h1 : createService p (withDefaults c) serviceTemplate s = (none, s1, t1))
    (h2 : createService p (withDefaults c) serviceReadTemplate s1 = (none, s2, t2))
    (hfb : c.spec.fromBackup ≠ "")
    (hget : p.getBackup c.spec.fromBackup s2 = (Except.error e, s3))
    (hd1 : p.deleteService (ServiceName c.name) s3 = (d1, s4))
    (hd2 : p.deleteService (ReadServiceName c.name) s4 = (d2, s5)) :
    (∃ t, (AddCluster p c s).2.2.2 = t ++ [Call.deleteSvc (ServiceName c.name),
      Call.deleteSvc (ReadServiceName c.name)]) ∧
    ∃ err, (AddCluster p c s).1 = some err ∧
      causes err = Err.k8s e ::
        ((d1.map Err.k8s).toList ++ (d2.map Err.k8s).toList) := by
  have h3 : createStatefulSet p (withDefaults c) s2 =
      (some (Err.k8s e), s3, [Call.getBackup c.spec.fromBackup]) := by
    simp [createStatefulSet, resolveBackup, hfb, hget]
  have hc := AddCluster_workload_fail_causes p c s s1 s2 s3 s4 s5 _ _ _
    (Err.k8s e) d1 d2 h1 h2 h3 hd1 hd2
  simpa [causes] using hc

/-- Witness for the amended C3 at a concrete platform with a failing backup
lookup and successful deletes. -/
theorem addCluster_backup_resolution_fail_witness :
    (∃ t, (AddCluster (scriptedPlatform "mycluster" none none none none none
        (Except.error (K8sErr.other "nobackup"))) testClusterFromBackup ()).2.2.2 =
      t ++ [Call.deleteSvc (ServiceName testClusterFromBackup.name),
        Call.deleteSvc (ReadServiceName testClusterFromBackup.name)]) ∧
    ∃ err, (AddCluster (scriptedPlatform "mycluster" none none none none none
        (Except.error (K8sErr.other "nobackup"))) testClusterFromBackup ()).1 =
        some err ∧
      causes err = Err.k8s (K8sErr.other "nobackup") ::
        (((none : Option K8sErr).map Err.k8s).toList ++
          ((none : Option K8sErr).map Err.k8s).toList) :=
  addCluster_backup_resolution_fail _ testClusterFromBackup ()
    () () () () () [Call.createSvc "mycluster"] [Call.createSvc "mycluster-read"]
    (K8sErr.other "nobackup") none none rfl rfl (by decide) rfl
    (by decide) (by decide)

/-- Counterexample to C7 as stated: with read-only creation failing and the
compensating delete failing with NotFound, the NotFound error does appear
among the causes of the composite error returned to the caller. -/
theorem addCluster_notFound_swallowed_counterexample :
    Err.k8s K8sErr.notFound ∈
      ((AddCluster (scriptedPlatform "mycluster" none (some (.other "boom"))
        none (some .notFound) none (Except.ok { name := "b" }))
        testCluster ()).1.elim ([] : List Err) causes) := by
  have h : ((AddCluster (scriptedPlatform "mycluster" none (some (.other "boom"))
      none (some .notFound) none (Except.ok { name := "b" }))
      testCluster ()).1.elim ([] : List Err) causes) =
      [Err.k8s (K8sErr.other "boom"), Err.k8s K8sErr.notFound] := rfl
  rw [h]
  simp

/-- C7 amended: a failing compensating delete of the read-write service is
aggregated into the composite error whatever its error class — NotFound
included; only a nil deletion result is omitted from the aggregate. -/
theorem addCluster_delete_error_aggregated {σ : Type}
    (p : Platform σ) (c : MySQLCluster) (s : σ)
    (svcRW svcRO : Service) (s1 s2 s3 : σ) (e de : K8sErr)
    (hrw : p.renderService (withDefaults c) serviceTemplate = Except.ok svcRW)
    (hcrw : p.createService svcRW s = (none, s1))
    (hro : p.renderService (withDefaults c) serviceReadTemplate = Except.ok svcRO)
    (hcro : p.createService svcRO s1 = (some e, s2))
    (hne : e ≠ K8sErr.alreadyExists)
    (hdel : p.deleteService (ServiceName c.name) s2 = (some de, s3)) :
    ∃ err, (AddCluster p c s).1 = some err ∧
      causes err = [Err.k8s e, Err.k8s de] := by
  rw [AddCluster_read_service_fail_eq p c s svcRW svcRO s1 s2 s3 e (some de)
    hrw hcrw hro hcro hne hdel]
  exact ⟨_, rfl, by simp [newAggregate, causes, causesList]⟩

/-- Witness for the amended C7: the deletion failure is NotFound and it is
preserved as the second cause. -/
theorem addCluster_delete_error_aggregated_witness :
    ∃ err, (AddCluster (scriptedPlatform "mycluster" none (some (.other "boom"))
        none (some .notFound) none (Except.ok { name := "b" }))
        testCluster ()).1 = some err ∧
      causes err = [Err.k8s (K8sErr.other "boom"), Err.k8s K8sErr.notFound] :=
  addCluster_delete_error_aggregated _ testCluster ()
    { name := "mycluster", resourceVersion := "" }
    { name := "mycluster-read", resourceVersion := "" } () () ()
    (K8sErr.other "boom") K8sErr.notFound rfl (by decide) rfl (by decide)
    (by simp) (by decide)

/-- `updateService` performs no stateful-set update call. -/
theorem updateService_no_updateSts {σ : Type} (p : Platform σ) (c : MySQLCluster)
    (template : String) (s : σ) (n : String) :
    Call.updateSts n ∉ (updateService p c template s).2.2 := by
  unfold updateService
  repeat' split
  all_goals simp

/-- `updateServices` performs no stateful-set update call. -/
theorem updateServices_no_updateSts {σ : Type} (p : Platform σ) (c : MySQLCluster)
    (s : σ) (n : String) :
    Call.updateSts n ∉ (updateServices p c s).2.2 := by
  rcases h1 : updateService p c serviceTemplate s with ⟨r1, s1, t1⟩
  have n1 : Call.updateSts n ∉ t1 := by
    have h := updateService_no_updateSts p c serviceTemplate s n
    rw [h1] at h; exact h
  rcases r1 with _ | e1
  · rcases h2 : updateService p c serviceReadTemplate s1 with ⟨r2, s2, t2⟩
    have n2 : Call.updateSts n ∉ t2 := by
      have h := updateService_no_updateSts p c serviceReadTemplate s1 n
      rw [h2] at h; exact h
    simp [updateServices, h1, h2, n1, n2]
  · simp [updateServices, h1, n1]

/-- C4: when the service update step of `UpdateCluster` fails, the resource
status is set to "Failed update" with the Service-failure message, no
stateful-set update is attempted, and the result is the aggregate of the
update error with the status-write outcome. -/
theorem updateCluster_service_fail {σ : Type}
    (p : Platform σ) (c : MySQLCluster) (s : σ)
    (s1 s2 : σ) (t1 : List Call) (e : Err) (u : Option K8sErr)
    (hus : updateServices p (withDefaults c) s = (some e, s1, t1))
    (hsw : p.updateClusterStatus (withStatus (withDefaults c) "Failed update"
        "The provided patch resulted in a Service update failure") s1 = (u, s2)) :
    (UpdateCluster p c s).2.1.status =
      { state := "Failed update",
        message := "The provided patch resulted in a Service update failure" } ∧
    (∀ n, Call.updateSts n ∉ (UpdateCluster p c s).2.2.2) ∧
    (UpdateCluster p c s).1 = newAggregate [some e, u.map Err.k8s] := by
  have heq : UpdateCluster p c s =
      (newAggregate [some e, u.map Err.k8s],
        withStatus (withDefaults c) "Failed update"
          "The provided patch resulted in a Service update failure",
        s2,
        t1 ++ [Call.updateStatus "Failed update"
          "The provided patch resulted in a Service update failure"]) := by
    simp [UpdateCluster, setClusterState, hus, hsw]
  rw [heq]
  refine ⟨rfl, ?_, rfl⟩
  intro n
  have n1 : Call.updateSts n ∉ t1 := by
    have h := updateServices_no_updateSts p (withDefaults c) s n
    rw [hus] at h; exact h
  simp [n1]

/-- Witness for C4 at a concrete platform: the read-write service update
fails and the status write succeeds. -/
theorem updateCluster_service_fail_witness :
    (UpdateCluster (scriptedUpdatePlatform "mycluster" (some (.other "uboom"))
        none none none ({ name := "x", resourceVersion := "7" }, none))
        testCluster ()).2.1.status =
      { state := "Failed update",
        message := "The provided patch resulted in a Service update failure" } ∧
    (∀ n, Call.updateSts n ∉ (UpdateCluster (scriptedUpdatePlatform "mycluster"
        (some (.other "uboom")) none none none
        ({ name := "x", resourceVersion := "7" }, none)) testCluster ()).2.2.2) ∧
    (UpdateCluster (scriptedUpdatePlatform "mycluster" (some (.other "uboom"))
        none none none ({ name := "x", resourceVersion := "7" }, none))
        testCluster ()).1 =
      newAggregate [some (Err.k8s (K8sErr.other "uboom")),
        (none : Option K8sErr).map Err.k8s] :=
  updateCluster_service_fail _ testCluster () () ()
    [Call.getSvc "mycluster", Call.updateSvc "mycluster" "7"]
    (Err.k8s (K8sErr.other "uboom")) none rfl rfl

/-- C5: when both service updates and the stateful-set update succeed, the
resource status is set to "Successful update" with an empty message, and
the status-write outcome is returned directly (not aggregated). -/
theorem updateCluster_success {σ : Type}
    (p : Platform σ) (c : MySQLCluster) (s : σ)
    (s1 s2 s3 : σ) (t1 t2 : List Call) (u : Option K8sErr)
    (hus : updateServices p (withDefaults c) s = (none, s1, t1))
    (hsts : updateStatefulSet p (withDefaults c) s1 = (none, s2, t2))
    (hsw : p.updateClusterStatus (withStatus (withDefaults c)
        "Successful update" "") s2 = (u, s3)) :
    (UpdateCluster p c s).2.1.status =
      { state := "Successful update", message := "" } ∧
    (UpdateCluster p c s).1 = u.map Err.k8s := by
  simp [UpdateCluster, setClusterState, hus, hsts, hsw]

/-- Witness for C5 at a concrete platform: all updates succeed and the
status write fails; its error is returned unwrapped. -/
theorem updateCluster_success_witness :
    (UpdateCluster (scriptedUpdatePlatform "mycluster" none none none
        (some (.other "wboom")) ({ name := "x", resourceVersion := "7" }, none))
        testCluster ()).2.1.status =
      { state := "Successful update", message := "" } ∧
    (UpdateCluster (scriptedUpdatePlatform "mycluster" none none none
        (some (.other "wboom")) ({ name := "x", resourceVersion := "7" }, none))
        testCluster ()).1 =
      (some (K8sErr.other "wboom") : Option K8sErr).map Err.k8s :=
  updateCluster_success _ testCluster () () () ()
    [Call.getSvc "mycluster", Call.updateSvc "mycluster" "7",
      Call.getSvc "mycluster-read", Call.updateSvc "mycluster-read" "7"]
    [Call.updateSts "mycluster"] (some (K8sErr.other "wboom")) rfl rfl rfl

/-- `createService` performs no status-write call. -/
theorem createService_no_status {σ : Type} (p : Platform σ) (c : MySQLCluster)
    (f : String) (s : σ) (st msg : String) :
    Call.updateStatus st msg ∉ (createService p c f s).2.2 := by
  unfold createService
  repeat' split
  all_goals simp

/-- `resolveBackup` performs no status-write call. -/
theorem resolveBackup_no_status {σ : Type} (p : Platform σ) (c : MySQLCluster)
    (s : σ) (st msg : String) :
    Call.updateStatus st msg ∉ (resolveBackup p c s).2.2 := by
  unfold resolveBackup
  repeat' split
  all_goals simp

/-- `createStatefulSet` performs no status-write call. -/
theorem createStatefulSet_no_status {σ : Type} (p : Platform σ) (c : MySQLCluster)
    (s : σ) (st msg : String) :
    Call.updateStatus st msg ∉ (createStatefulSet p c s).2.2 := by
  rcases hrb : resolveBackup p c s with ⟨rb, s1, t1⟩
  have n1 : Call.updateStatus st msg ∉ t1 := by
    have h := resolveBackup_no_status p c s st msg
    rw [hrb] at h; exact h
  rcases rb with e | backup
  · simp [createStatefulSet, hrb, n1]
  · rcases hr : p.renderStatefulSet c backup with m | sts
    · simp [createStatefulSet, hrb, hr, n1]
    · rcases hc2 : p.createStatefulSet sts s1 with ⟨r, s2⟩
      rcases r with _ | e2
      · simp [createStatefulSet, hrb, hr, hc2, n1]
      · cases e2 <;> simp [createStatefulSet, hrb, hr, hc2, n1]

/-- `AddCluster` returns the defaulted input cluster object unchanged. -/
theorem AddCluster_cluster_eq {σ : Type} (p : Platform σ) (c : MySQLCluster)
    (s : σ) : (AddCluster p c s).2.1 = withDefaults c := by
  simp only [AddCluster]
  repeat' split
  all_goals rfl

/-- `AddCluster`'s call trace contains no status write. -/
theorem AddCluster_trace_no_status {σ : Type} (p : Platform σ) (c : MySQLCluster)
    (s : σ) (st msg : String) :
    Call.updateStatus st msg ∉ (AddCluster p c s).2.2.2 := by
  rcases h1 : createService p (withDefaults c) serviceTemplate s with ⟨r1, s1, t1⟩
  have n1 : Call.updateStatus st msg ∉ t1 := by
    have h := createService_no_status p (withDefaults c) serviceTemplate s st msg
    rw [h1] at h; exact h
  rcases r1 with _ | e1
  · rcases h2 : createService p (withDefaults c) serviceReadTemplate s1 with ⟨r2, s2, t2⟩
    have n2 : Call.updateStatus st msg ∉ t2 := by
      have h := createService_no_status p (withDefaults c) serviceReadTemplate s1 st msg
      rw [h2] at h; exact h
    rcases r2 with _ | e2
    · rcases h3 : createStatefulSet p (withDefaults c) s2 with ⟨r3, s3, t3⟩
      have n3 : Call.updateStatus st msg ∉ t3 := by
        have h := createStatefulSet_no_status p (withDefaults c) s2 st msg
        rw [h3] at h; exact h
      rcases r3 with _ | e3
      · simp [AddCluster, h1, h2, h3, n1, n2, n3]
      · rcases h4 : p.deleteService (ServiceName c.name) s3 with ⟨d1, s4⟩
        rcases h5 : p.deleteService (ReadServiceName c.name) s4 with ⟨d2, s5⟩
        simp [AddCluster, removeService, removeReadService, h1, h2, h3, h4, h5,
          n1, n2, n3]
    · rcases h4 : p.deleteService (ServiceName c.name) s2 with ⟨d1, s3⟩
      simp [AddCluster, removeService, h1, h2, h4, n1, n2]
  · simp [AddCluster, h1, n1]

/-- C8: `AddCluster` never writes the resource status: on every outcome the
returned cluster's status fields equal the input's, and the call trace
contains no status update. -/
theorem addCluster_no_status_write {σ : Type} (p : Platform σ) (c : MySQLCluster)
    (s : σ) :
    ((AddCluster p c s).2.1).status = c.status ∧
    ∀ st msg, Call.updateStatus st msg ∉ (AddCluster p c s).2.2.2 :=
  ⟨by rw [AddCluster_cluster_eq]; rfl,
    fun st msg => AddCluster_trace_no_status p c s st msg⟩

theorem mem_insertIfMissing_self (n : String) (l : List String) :
    n ∈ insertIfMissing n l := by
  unfold insertIfMissing
  split <;> simp_all

theorem mem_insertIfMissing_of_mem {a : String} {l : List String} (n : String)
    (h : a ∈ l) : a ∈ insertIfMissing n l := by
  unfold insertIfMissing
  split <;> simp_all

theorem insertIfMissing_of_mem {n : String} {l : List String} (h : n ∈ l) :
    insertIfMissing n l = l := by
  simp [insertIfMissing, h]

/-- The in-memory platform's service create: AlreadyExists iff present,
and the service list gains the name if it was missing. -/
theorem worldPlatform_createService_eq (svc : Service) (w : World) :
    worldPlatform.createService svc w =
      (if svc.name ∈ w.services then some K8sErr.alreadyExists else none,
        { w with services := insertIfMissing svc.name w.services }) := by
  by_cases hm : svc.name ∈ w.services <;>
    simp [worldPlatform, insertIfMissing, hm]

/-- The in-memory platform's stateful-set create, analogously. -/
theorem worldPlatform_createStatefulSet_eq (sts : StatefulSet) (w : World) :
    worldPlatform.createStatefulSet sts w =
      (if sts.name ∈ w.statefulSets then some K8sErr.alreadyExists else none,
        { w with statefulSets := insertIfMissing sts.name w.statefulSets }) := by
  by_cases hm : sts.name ∈ w.statefulSets <;>
    simp [worldPlatform, insertIfMissing, hm]

/-- Running `AddCluster` against the in-memory platform succeeds (when the
referenced backup, if any, exists) and the resulting world is the input
world with the three derived names inserted only where missing. -/
theorem worldPlatform_AddCluster (c : MySQLCluster) (w : World)
    (hwb : c.spec.fromBackup = "" ∨
      ∃ b, w.backups.find? (fun bb => bb.name = c.spec.fromBackup) = some b) :
    (AddCluster worldPlatform c w).1 = none ∧
    (AddCluster worldPlatform c w).2.2.1 =
      { services := insertIfMissing (ReadServiceName c.name) (insertIfMissing (ServiceName c.name) w.services),
        statefulSets := insertIfMissing (StatefulSetName c.name) w.statefulSets,
        backups := w.backups } := by
  have hneq : serviceTemplate ≠ serviceReadTemplate := by decide
  have hrw : worldPlatform.renderService (withDefaults c) serviceTemplate =
      Except.ok { name := ServiceName c.name, resourceVersion := "" } := by
    simp [worldPlatform, hneq]
  have hro : worldPlatform.renderService (withDefaults c) serviceReadTemplate =
      Except.ok { name := ReadServiceName c.name, resourceVersion := "" } := by
    simp [worldPlatform]
  have hc1 : createService worldPlatform (withDefaults c) serviceTemplate w =
      (none, { w with services := insertIfMissing (ServiceName c.name) w.services },
        [Call.createSvc (ServiceName c.name)]) := by
    by_cases hm : ServiceName c.name ∈ w.services <;>
      simp [createService, hrw, worldPlatform_createService_eq, hm]
  have hc2 : createService worldPlatform (withDefaults c) serviceReadTemplate
      { w with services := insertIfMissing (ServiceName c.name) w.services } =
      (none, { w with services := insertIfMissing (ReadServiceName c.name) (insertIfMissing (ServiceName c.name) w.services) },
        [Call.createSvc (ReadServiceName c.name)]) := by
    by_cases hm : ReadServiceName c.name ∈
        insertIfMissing (ServiceName c.name) w.services <;>
      simp [createService, hro, worldPlatform_createService_eq, hm]
  have hrsts : ∀ b, worldPlatform.renderStatefulSet (withDefaults c) b =
      Except.ok { name := StatefulSetName c.name } := by
    intro b; simp [worldPlatform]
  have hres : ∃ backup tB, resolveBackup worldPlatform (withDefaults c)
      { w with services := insertIfMissing (ReadServiceName c.name) (insertIfMissing (ServiceName c.name) w.services) } =
      (Except.ok backup,
        { w with services := insertIfMissing (ReadServiceName c.name) (insertIfMissing (ServiceName c.name) w.services) }, tB) := by
    by_cases hfb : c.spec.fromBackup = ""
    · exact ⟨none, [], by simp [resolveBackup, hfb]⟩
    · rcases hwb with hfb' | ⟨b, hfind⟩
      · exact absurd hfb' hfb
      · exact ⟨some b, [Call.getBackup c.spec.fromBackup],
          by simp [resolveBackup, hfb, worldPlatform, hfind]⟩
  obtain ⟨backup, tB, hres⟩ := hres
  have hc3 : createStatefulSet worldPlatform (withDefaults c)
      { w with services := insertIfMissing (ReadServiceName c.name) (insertIfMissing (ServiceName c.name) w.services) } =
      (none,
        { services := insertIfMissing (ReadServiceName c.name) (insertIfMissing (ServiceName c.name) w.services),
          statefulSets := insertIfMissing (StatefulSetName c.name) w.statefulSets,
          backups := w.backups },
        tB ++ [Call.createSts (StatefulSetName c.name)]) := by
    by_cases hm : StatefulSetName c.name ∈ w.statefulSets <;>
      simp [createStatefulSet, hres, hrsts, worldPlatform_createStatefulSet_eq, hm]
  constructor <;> simp [AddCluster, hc1, hc2, hc3]

/-- C6: `AddCluster` is idempotent with respect to pre-existing derived
objects.  First conjunct: against any platform whose create responses are
success-or-AlreadyExists (renders and backup lookup succeeding),
`AddCluster` returns no error.  Remaining conjuncts: running `AddCluster`
twice against the in-memory platform produces no error on either run and
the second run leaves the world exactly as the first run left it — no
duplicate objects are created. -/
theorem addCluster_idempotent {σ : Type}
    (p : Platform σ) (c : MySQLCluster) (s : σ) (w : World)
    (svcRW svcRO : Service)
    (hrw : p.renderService (withDefaults c) serviceTemplate = Except.ok svcRW)
    (hro : p.renderService (withDefaults c) serviceReadTemplate = Except.ok svcRO)
    (hcs : ∀ svc s', (p.createService svc s').1 = none ∨
      (p.createService svc s').1 = some K8sErr.alreadyExists)
    (hback : c.spec.fromBackup ≠ "" → ∀ s', ∃ b s'',
      p.getBackup c.spec.fromBackup s' = (Except.ok b, s''))
    (hrsts : ∀ b, ∃ sts, p.renderStatefulSet (withDefaults c) b = Except.ok sts)
    (hcsts : ∀ sts s', (p.createStatefulSet sts s').1 = none ∨
      (p.createStatefulSet sts s').1 = some K8sErr.alreadyExists)
    (hwb : c.spec.fromBackup = "" ∨
      ∃ b, w.backups.find? (fun bb => bb.name = c.spec.fromBackup) = some b) :
    (AddCluster p c s).1 = none ∧
    (AddCluster worldPlatform c w).1 = none ∧
    (AddCluster worldPlatform c ((AddCluster worldPlatform c w).2.2.1)).1 = none ∧
    (AddCluster worldPlatform c ((AddCluster worldPlatform c w).2.2.1)).2.2.1 =
      (AddCluster worldPlatform c w).2.2.1 := by
  have hgen : (AddCluster p c s).1 = none := by
    rcases hcrw : p.createService svcRW s with ⟨r1, s1⟩
    have h1 : createService p (withDefaults c) serviceTemplate s =
        (none, s1, [Call.createSvc svcRW.name]) := by
      have hh := hcs svcRW s
      rw [hcrw] at hh
      simp only at hh
      rcases hh with h | h <;> subst h <;> simp [createService, hrw, hcrw]
    rcases hcro : p.createService svcRO s1 with ⟨r2, s2⟩
    have h2 : createService p (withDefaults c) serviceReadTemplate s1 =
        (none, s2, [Call.createSvc svcRO.name]) := by
      have hh := hcs svcRO s1
      rw [hcro] at hh
      simp only at hh
      rcases hh with h | h <;> subst h <;> simp [createService, hro, hcro]
    have hres : ∃ b sB tB, resolveBackup p (withDefaults c) s2 =
        (Except.ok b, sB, tB) := by
      by_cases hfb : c.spec.fromBackup = ""
      · exact ⟨none, s2, [], by simp [resolveBackup, hfb]⟩
      · obtain ⟨b, s'', hget⟩ := hback hfb s2
        exact ⟨some b, s'', [Call.getBackup c.spec.fromBackup],
          by simp [resolveBackup, hfb, hget]⟩
    obtain ⟨b, sB, tB, hres⟩ := hres
    obtain ⟨sts, hrsts'⟩ := hrsts b
    rcases hcsts' : p.createStatefulSet sts sB with ⟨r3, s3⟩
    have h3 : createStatefulSet p (withDefaults c) s2 =
        (none, s3, tB ++ [Call.createSts sts.name]) := by
      have hh := hcsts sts sB
      rw [hcsts'] at hh
      simp only at hh
      rcases hh with h | h <;> subst h <;>
        simp [createStatefulSet, hres, hrsts', hcsts']
    simp [AddCluster, h1, h2, h3]
  have run1 := worldPlatform_AddCluster c w hwb
  have hwb1 : c.spec.fromBackup = "" ∨
      ∃ b, ((AddCluster worldPlatform c w).2.2.1).backups.find?
        (fun bb => bb.name = c.spec.fromBackup) = some b := by
    rw [run1.2]; exact hwb
  have run2 := worldPlatform_AddCluster c ((AddCluster worldPlatform c w).2.2.1) hwb1
  refine ⟨hgen, run1.1, run2.1, ?_⟩
  rw [run2.2, run1.2]
  have hm1 : ServiceName c.name ∈ insertIfMissing (ReadServiceName c.name)
      (insertIfMissing (ServiceName c.name) w.services) :=
    mem_insertIfMissing_of_mem _ (mem_insertIfMissing_self _ _)
  have hm2 : ReadServiceName c.name ∈ insertIfMissing (ReadServiceName c.name)
      (insertIfMissing (ServiceName c.name) w.services) :=
    mem_insertIfMissing_self _ _
  have hm3 : StatefulSetName c.name ∈
      insertIfMissing (StatefulSetName c.name) w.statefulSets :=
    mem_insertIfMissing_self _ _
  simp [insertIfMissing_of_mem hm1, insertIfMissing_of_mem hm2,
    insertIfMissing_of_mem hm3]

/-- Witness for C6 at a concrete platform (all creates succeed) and an
initially empty world. -/
theorem addCluster_idempotent_witness :
    (AddCluster (scriptedPlatform "mycluster" none none none none none
      (Except.ok { name := "b" })) testCluster ()).1 = none ∧
    (AddCluster worldPlatform testCluster
      { services := [], statefulSets := [], backups := [] }).1 = none ∧
    (AddCluster worldPlatform testCluster
      ((AddCluster worldPlatform testCluster
        { services := [], statefulSets := [], backups := [] }).2.2.1)).1 = none ∧
    (AddCluster worldPlatform testCluster
      ((AddCluster worldPlatform testCluster
        { services := [], statefulSets := [], backups := [] }).2.2.1)).2.2.1 =
      (AddCluster worldPlatform testCluster
        { services := [], statefulSets := [], backups := [] }).2.2.1 :=
  addCluster_idempotent _ testCluster ()
    { services := [], statefulSets := [], backups := [] }
    { name := "mycluster", resourceVersion := "" }
    { name := "mycluster-read", resourceVersion := "" }
    rfl rfl (fun _ _ => Or.inl (by simp [scriptedPlatform]))
    (fun h => absurd rfl h)
    (fun _ => ⟨{ name := "mycluster" }, rfl⟩)
    (fun _ _ => Or.inl (by simp [scriptedPlatform]))
    (Or.inl rfl)

/-- C9 (modelled from the spec): the Dispatcher invokes the Reconciler
exactly once per notification — the invocation trace has one entry per
notification, pointwise determined by it — and for two notifications
[Added(X), Modified(X)] arriving in that order, the trace has
`AddCluster X` at the earlier position and `UpdateCluster X` at the later
one; nothing for the same identity is reordered or dropped. -/
theorem dispatcher_exactly_once_in_order (ns : List Notification) :
    (dispatch ns).length = ns.length ∧
    (∀ i : Nat, (dispatch ns)[i]? = (ns[i]?).map dispatchOne) ∧
    (∀ (x : String) (i j : Nat), i < j →
      ns[i]? = some { kind := .added, clusterName := x } →
      ns[j]? = some { kind := .modified, clusterName := x } →
      (dispatch ns)[i]? = some (.addCluster x) ∧
      (dispatch ns)[j]? = some (.updateCluster x)) := by
  refine ⟨by simp [dispatch], fun i => by simp [dispatch], ?_⟩
  intro x i j hij hi hj
  constructor <;> simp [dispatch, hi, hj, dispatchOne]

/-- Witness for C9 on a concrete two-notification stream for one
identity. -/
theorem dispatcher_exactly_once_in_order_witness :
    (dispatch [{ kind := .added, clusterName := "x" },
      { kind := .modified, clusterName := "x" }])[0]? =
      some (.addCluster "x") ∧
    (dispatch [{ kind := .added, clusterName := "x" },
      { kind := .modified, clusterName := "x" }])[1]? =
      some (.updateCluster "x") :=
  (dispatcher_exactly_once_in_order
    [{ kind := .added, clusterName := "x" },
      { kind := .modified, clusterName := "x" }]).2.2 "x" 0 1
    (by decide) rfl rfl

/-- C10: `updateService` discards the Get error without inspection: its
result is the render error when rendering fails, and otherwise exactly the
Update outcome — never the Get failure — and the Update is attempted even
when Get failed, using whatever resource version the failed read's returned
object carried. -/
theorem updateService_ignores_get_error {σ : Type}
    (p : Platform σ) (c : MySQLCluster) (template : String) (s : σ) :
    (∀ m, p.renderService c template = Except.error m →
      updateService p c template s = (some (.render m), s, [])) ∧
    (∀ svc oldSvc gerr s1 uerr s2,
      p.renderService c template = Except.ok svc →
      p.getService svc.name s = ((oldSvc, gerr), s1) →
      p.updateService { svc with resourceVersion := oldSvc.resourceVersion } s1 =
        (uerr, s2) →
      updateService p c template s = (uerr.map Err.k8s, s2,
        [Call.getSvc svc.name,
          Call.updateSvc svc.name oldSvc.resourceVersion])) := by
  constructor
  · intro m hr
    simp [updateService, hr]
  · intro svc oldSvc gerr s1 uerr s2 hr hg hu
    simp [updateService, hr, hg, hu]

/-- Witness for C10: the Get fails, yet the Update is attempted with the
resource version from the Get's returned object and its error is the
result. -/
theorem updateService_ignores_get_error_witness :
    updateService (scriptedUpdatePlatform "mycluster" (some (.other "ub"))
        none none none ({ name := "old", resourceVersion := "9" },
          some (.other "getfail"))) testCluster serviceTemplate () =
      ((some (K8sErr.other "ub") : Option K8sErr).map Err.k8s, (),
        [Call.getSvc "mycluster", Call.updateSvc "mycluster" "9"]) :=
  (updateService_ignores_get_error _ testCluster serviceTemplate ()).2
    { name := "mycluster", resourceVersion := "" }
    { name := "old", resourceVersion := "9" }
    (some (K8sErr.other "getfail")) () (some (K8sErr.other "ub")) ()
    rfl rfl (by decide)

end MySQLOperator
